import Mathlib

/-!
Verification of the coverage-validation core of a two-stage test-generation
pipeline.

This file gives a shallow embedding, in Lean, of the decision logic of the
repository: the structural extractor over Python ASTs, the coverage
validator, the scenario generator, the coverage- and execution-loop
controllers, and the per-test-case status tracker.  Python dictionaries with
a fixed key schema become structures; Python sets of strings become
`Finset String`; Python floats become exact rationals; Python ints become
`Int` (or `Nat` where the source can only produce non-negative values).

Modelling conventions, stated once:
* A source text is represented by its parse outcome (`ParsedSource`): the
  parser itself is the CPython standard library, external to the repository.
* `round(x, 2)` on floats is modelled as exact rational rounding to two
  decimal places (`pyRound2`).  CPython rounds half-to-even on binary
  floats; the two agree except at exact `.xx5` ties, and no statement in
  this file depends on the value at a tie.
* Python set iteration order is unspecified, so sets stay `Finset`s in the
  results rather than being converted to lists.
* Log statements and human-readable "reason" strings are presentation, not
  decision logic, and are not modelled.
-/

/-! ## Small Python-semantics helpers -/

/-- Prefix test on lists of characters, used to build the substring test. -/
def listPre : List Char → List Char → Bool
  | [], _ => true
  | _ :: _, [] => false
  | a :: n, b :: h => a == b && listPre n h

/-- Substring test on lists of characters. -/
def listSub (n : List Char) : List Char → Bool
  | [] => n.isEmpty
  | b :: t => listPre n (b :: t) || listSub n t

/-- Python `needle in hay` on strings (substring containment). -/
def pyIn (needle hay : String) : Bool :=
  listSub needle.data hay.data

/-- Python `s.lower()` (ASCII case folding, as in the language tags the
code compares against). -/
def pyLower (s : String) : String :=
  ⟨s.data.map Char.toLower⟩

/-- Python `s.startswith(pre)`. -/
def pyStartsWith (s pre : String) : Bool :=
  listPre pre.data s.data

/-- Python `s.endswith(suf)`. -/
def pyEndsWith (s suf : String) : Bool :=
  listPre suf.data.reverse s.data.reverse

/-- Python `f"{n:03d}"`: decimal, left-padded with zeros to width 3. -/
def pad3 (n : Nat) : String :=
  if n < 10 then "00" ++ toString n
  else if n < 100 then "0" ++ toString n
  else toString n

/-- Python `round(x, 2)` modelled over exact rationals. -/
def pyRound2 (q : ℚ) : ℚ :=
  (round (q * 100) : ℤ) / 100

/-! ## Structural extractor (`agents/code_analyzer/tools.py`)

Python AST nodes relevant to the visitor.  `funcDef` is an
`ast.FunctionDef` (name, docstring, arguments with optional type hints,
optional return annotation, body); `classDef` an `ast.ClassDef`; `other`
any other statement, carrying the statements nested inside it, which
`ast.NodeVisitor.generic_visit` recurses into. -/

/-- A single parameter of a function: its name and, when present, the
string form of its type hint. -/
structure ParamInfo where
  name : String
  annot : Option String
deriving DecidableEq

/-- Python statements, restricted to what the visitor distinguishes. -/
inductive PyStmt where
  | funcDef (name : String) (doc : Option String) (params : List ParamInfo)
      (ret : Option String) (body : List PyStmt)
  | classDef (name : String) (doc : Option String) (body : List PyStmt)
  | other (children : List PyStmt)

/-- The dictionary produced by `CodeVisitor._get_function_details`. -/
structure FuncInfo where
  name : String
  docstring : Option String
  parameters : List ParamInfo
  return_type : Option String
deriving DecidableEq

/-- One entry of `CodeVisitor.structure`: either a function entry or a
class entry (`type` tag plus payload). -/
inductive StructItem where
  | function (info : FuncInfo)
  | classItem (name : String) (docstring : Option String)
      (methods : List FuncInfo)
deriving DecidableEq

/-- `_get_function_details` applied to a `funcDef` node. -/
def funcDetails (name : String) (doc : Option String) (params : List ParamInfo)
    (ret : Option String) : FuncInfo :=
  { name := name, docstring := doc, parameters := params, return_type := ret }

/-- The method-collection loop in `visit_ClassDef`: every `FunctionDef`
directly in the class body becomes a method entry; nothing recurses. -/
def collectMethods (body : List PyStmt) : List FuncInfo :=
  body.filterMap fun
    | .funcDef n d ps r _ => some (funcDetails n d ps r)
    | _ => none

/-- The visitor's traversal of a list of statements.  A `classDef` yields
one class entry and does not recurse (`generic_visit` is deliberately not
called); a `funcDef` yields one function entry (the `parents` attribute
consulted by `visit_FunctionDef` never exists on an `ast` node, so the
top-level guard is always true, and `visit_FunctionDef` does not recurse
either); any other statement is recursed into by `generic_visit`. -/
def visitList : List PyStmt → List StructItem
  | [] => []
  | .funcDef n d ps r _ :: rest =>
      .function (funcDetails n d ps r) :: visitList rest
  | .classDef n d body :: rest =>
      .classItem n d (collectMethods body) :: visitList rest
  | .other children :: rest => visitList children ++ visitList rest
termination_by l => sizeOf l
decreasing_by all_goals (simp_wf; try omega)

/-- A source text, represented by its parse outcome (`ast.parse` is
external): either a module body or a parse failure carrying the
diagnostic used to build the error message. -/
inductive ParsedSource where
  | ok (body : List PyStmt)
  | parseError (msg : String)

/-- Outcome of `analyze_code_structure`: a success dictionary, an error
dictionary, or a Python exception escaping the call. -/
inductive AnalyzeResult where
  | success (struct : List StructItem)
  | error (msg : String)
  | raised (msg : String)
deriving DecidableEq

/-- `analyze_code_structure(source_code, language)`. -/
def analyze_code_structure (source : ParsedSource) (language : String) :
    AnalyzeResult :=
  if pyLower language == "python" then
    match source with
    | .ok body => .success (visitList body)
    | .parseError e => .error ("Python syntax error: " ++ e)
  else if pyLower language == "java" then
    .raised "Java code analysis is not yet implemented."
  else
    .error ("Unsupported language: " ++ language)

/-- Number of top-level function entries named `n` in a structure. -/
def countTopFns (items : List StructItem) (n : String) : Nat :=
  items.countP fun
    | .function f => f.name == n
    | _ => false

/-- Number of method entries named `m` inside class entries named `c`. -/
def countMethodEntries (items : List StructItem) (c m : String) : Nat :=
  (items.map fun
    | .classItem cn _ ms => if cn == c then ms.countP (fun f => f.name == m) else 0
    | _ => 0).sum

/-! ## Static-analysis input of the downstream tools

`validate_scenario_coverage` and `generate_coverage_focused_scenarios`
accept either the AST-based format (a dictionary with a `structure` key)
or a legacy format with `functions` / `classes` / `methods` keys whose
entries are loose dictionaries (`.get` lookups, so every field may be
absent). -/

/-- A legacy-format function or method entry: a dictionary whose `name`
and `parameters` keys may be absent. -/
structure LooseFunc where
  name : Option String
  parameters : Option (List ParamInfo)
deriving DecidableEq

/-- The static-analysis argument of the validator and the generator. -/
inductive StaticAnalysis where
  | structured (items : List StructItem)
  | legacy (functions : List LooseFunc) (classes : List (Option String))
      (methods : List (String × List LooseFunc))
deriving DecidableEq

/-- A test-scenario dictionary as read by the validator and produced by
the generator.  The validator reads `target_type`, `target_name` and
`coverage_target` with `.get(_, '')`, under which an absent key and the
empty string are indistinguishable, so the fields are plain strings. -/
structure Scenario where
  id : String
  target_type : String
  target_name : String
  description : String
  coverage_target : String
  priority : String
  iteration_focus : Bool := false
deriving DecidableEq

/-- The set `all_functions` built by `validate_scenario_coverage`: in the
legacy format an entry contributes only when its name is truthy
(present and non-empty). -/
def all_functions : StaticAnalysis → Finset String
  | .structured items =>
      items.foldl (fun s it =>
        match it with
        | .function f => insert f.name s
        | _ => s) ∅
  | .legacy fns _ _ =>
      fns.foldl (fun s f =>
        match f.name with
        | some n => if n ≠ "" then insert n s else s
        | none => s) ∅

/-- The set `all_classes` built by `validate_scenario_coverage`. -/
def all_classes : StaticAnalysis → Finset String
  | .structured items =>
      items.foldl (fun s it =>
        match it with
        | .classItem cn _ _ => insert cn s
        | _ => s) ∅
  | .legacy _ cls _ =>
      cls.foldl (fun s c =>
        match c with
        | some n => if n ≠ "" then insert n s else s
        | none => s) ∅

/-- Insertion of the qualified names of one class's methods. -/
def insertQualified (cn : String) (names : List (Option String))
    (s : Finset String) : Finset String :=
  names.foldl (fun s mn =>
    match mn with
    | some n => if n ≠ "" then insert (cn ++ "." ++ n) s else s
    | none => s) s

/-- The set `all_methods` built by `validate_scenario_coverage`:
qualified `Class.method` names.  In the structured format method entries
always carry a name (`method['name']` is a direct index). -/
def all_methods : StaticAnalysis → Finset String
  | .structured items =>
      items.foldl (fun s it =>
        match it with
        | .classItem cn _ ms => ms.foldl (fun s m => insert (cn ++ "." ++ m.name) s) s
        | _ => s) ∅
  | .legacy _ _ meths =>
      meths.foldl (fun s p => insertQualified p.1 (p.2.map (·.name)) s) ∅

/-- The `if/elif` classification of one scenario in the covered-units
loop: does it land in the function branch? -/
def hitsFunction (sc : Scenario) : Bool :=
  sc.target_type == "function" || pyStartsWith sc.coverage_target "function:"

/-- Second branch of the classification (only reached when the function
branch did not fire). -/
def hitsClass (sc : Scenario) : Bool :=
  sc.target_type == "class" || pyStartsWith sc.coverage_target "class:"

/-- Third branch of the classification. -/
def hitsMethod (sc : Scenario) : Bool :=
  sc.target_type == "method" || pyStartsWith sc.coverage_target "method:"

/-- One step of the covered-units loop: the scenario's target name is
added to the set selected by the `if/elif` chain, unconditionally — the
code never checks the name against the unit inventory. -/
def addCovered (acc : Finset String × Finset String × Finset String)
    (sc : Scenario) : Finset String × Finset String × Finset String :=
  if hitsFunction sc then (insert sc.target_name acc.1, acc.2.1, acc.2.2)
  else if hitsClass sc then (acc.1, insert sc.target_name acc.2.1, acc.2.2)
  else if hitsMethod sc then (acc.1, acc.2.1, insert sc.target_name acc.2.2)
  else acc

/-- The three covered sets after the scenario loop. -/
def coveredSets (scenarios : List Scenario) :
    Finset String × Finset String × Finset String :=
  scenarios.foldl addCovered (∅, ∅, ∅)

/-- Result dictionary of `validate_scenario_coverage`.  The four coverage
percentages are stored rounded (`round(x, 2)`); `meets_target` is
computed from the unrounded overall coverage. -/
structure CoverageReport where
  overall_coverage : ℚ
  function_coverage : ℚ
  class_coverage : ℚ
  method_coverage : ℚ
  total_units : Nat
  covered_units : Nat
  uncovered_units_count : Int
  covered_functions : Finset String
  covered_classes : Finset String
  covered_methods : Finset String
  uncovered_functions : Finset String
  uncovered_classes : Finset String
  uncovered_methods : Finset String
  meets_target : Bool
  total_scenarios : Nat
deriving DecidableEq

/-- `validate_scenario_coverage(test_scenarios, static_analysis)`. -/
def validate_scenario_coverage (test_scenarios : List Scenario)
    (static_analysis : StaticAnalysis) : CoverageReport :=
  let aF := all_functions static_analysis
  let aC := all_classes static_analysis
  let aM := all_methods static_analysis
  let cov := coveredSets test_scenarios
  let cF := cov.1
  let cC := cov.2.1
  let cM := cov.2.2
  let total_units := aF.card + aC.card + aM.card
  let covered_units := cF.card + cC.card + cM.card
  let overall : ℚ :=
    if total_units > 0 then (covered_units : ℚ) / (total_units : ℚ) * 100 else 0
  let fCov : ℚ := if aF.card = 0 then 100 else (cF.card : ℚ) / (aF.card : ℚ) * 100
  let cCov : ℚ := if aC.card = 0 then 100 else (cC.card : ℚ) / (aC.card : ℚ) * 100
  let mCov : ℚ := if aM.card = 0 then 100 else (cM.card : ℚ) / (aM.card : ℚ) * 100
  { overall_coverage := pyRound2 overall
    function_coverage := pyRound2 fCov
    class_coverage := pyRound2 cCov
    method_coverage := pyRound2 mCov
    total_units := total_units
    covered_units := covered_units
    uncovered_units_count := (total_units : Int) - (covered_units : Int)
    covered_functions := cF
    covered_classes := cC
    covered_methods := cM
    uncovered_functions := aF \ cF
    uncovered_classes := aC \ cC
    uncovered_methods := aM \ cM
    meets_target := decide (overall ≥ 100)
    total_scenarios := test_scenarios.length }

/-! ## Coverage loop controller (`agents/coverage_loop_controller/tools.py`) -/

/-- `COVERAGE_MAX_ITERATIONS` from `agents/config.py`. -/
def COVERAGE_MAX_ITERATIONS : Int := 5

/-- `COVERAGE_TARGET` from `agents/config.py`. -/
def COVERAGE_TARGET : ℚ := 100

/-- `MIN_COVERAGE_THRESHOLD` from `agents/config.py`. -/
def MIN_COVERAGE_THRESHOLD : ℚ := 80

/-- The `coverage_validation` argument as the controller reads it.
`present` is Python truthiness of the argument combined with the
`isinstance(_, dict)` check (an absent, empty or non-dict value is not
present); `has_summary` is truthiness of the `coverage_summary` entry;
`summary_overall` is its `overall_coverage` entry when that key exists;
`coverage_percentage` and `meets_target` are top-level entries. -/
structure CoverageValidationInput where
  present : Bool
  has_summary : Bool
  summary_overall : Option ℚ
  coverage_percentage : Option ℚ
  meets_target : Bool
deriving DecidableEq

/-- The dictionary returned by `should_continue_coverage_loop`, one
optional field per key that only some branches emit.  The free-text
`reason` entry is presentation and is not modelled. -/
structure CoverageLoopResult where
  should_continue : Bool
  current_coverage : Option ℚ := none
  gap : Option ℚ := none
  coverage_gap : Option ℚ := none
  remaining_iterations : Option Int := none
  final_coverage : Option ℚ := none
  exit_type : Option String := none
  deferred : Bool := false
deriving DecidableEq

/-- The coverage figure the controller extracts: the larger of the two
format-specific readings, then the alternative re-extraction applied when
that figure is zero although the summary carries an `overall_coverage`
key (the re-extraction reads the same key, so it returns the
format-1 reading). -/
def extract_overall (cv : CoverageValidationInput) : ℚ :=
  let oc1 := cv.summary_overall.getD 0
  let oc2 := cv.coverage_percentage.getD 0
  let oc := max oc1 oc2
  if oc = 0 ∧ cv.has_summary ∧ cv.summary_overall.isSome then oc1 else oc

/-- `should_continue_coverage_loop(coverage_validation, iteration_count,
max_iterations)`. -/
def should_continue_coverage_loop (cv : CoverageValidationInput)
    (iteration_count max_iterations : Int) : CoverageLoopResult :=
  if ¬cv.present then
    { should_continue := true
      current_coverage := some 0
      gap := some 100
      remaining_iterations := some (max_iterations - iteration_count)
      deferred := true }
  else
    let oc := extract_overall cv
    if iteration_count ≥ max_iterations then
      { should_continue := false
        final_coverage := some oc
        exit_type := some "max_iterations" }
    else if cv.meets_target ∧ oc ≥ COVERAGE_TARGET then
      { should_continue := false
        final_coverage := some oc
        exit_type := some "target_achieved" }
    else if oc ≥ MIN_COVERAGE_THRESHOLD ∧ iteration_count ≥ 2 then
      { should_continue := false
        final_coverage := some oc
        exit_type := some "acceptable_threshold" }
    else
      { should_continue := true
        current_coverage := some oc
        coverage_gap := some (COVERAGE_TARGET - oc)
        remaining_iterations := some (max_iterations - iteration_count) }

/-! ## Scenario generator (`agents/scenario_coverage_designer/tools.py`) -/

/-- The magic-method filter in the method pass: a name both starting and
ending with `__` is skipped unless it is one of the three whitelisted
names. -/
def is_excluded_magic (name : String) : Bool :=
  pyStartsWith name "__" && pyEndsWith name "__" &&
    !(name == "__init__" || name == "__str__" || name == "__repr__")

/-- Python dictionary assignment `d[k] = v` on an insertion-ordered
dictionary: an existing key keeps its position and gets the new value, a
new key is appended. -/
def dictInsert {α : Type} (d : List (String × α)) (k : String) (v : α) :
    List (String × α) :=
  if d.any (fun p => p.1 == k) then
    d.map (fun p => if p.1 == k then (k, v) else p)
  else d ++ [(k, v)]

/-- The function list the generator iterates over, one pair
(name, parameters) per entry, fields still optional as in the loose
dictionaries (`.get` with defaults happens at use). -/
def genFunctions : StaticAnalysis → List (Option String × Option (List ParamInfo))
  | .structured items =>
      items.filterMap fun
        | .function f => some (some f.name, some f.parameters)
        | _ => none
  | .legacy fns _ _ => fns.map (fun f => (f.name, f.parameters))

/-- The class-name list the generator's instantiation pass iterates over. -/
def genClasses : StaticAnalysis → List (Option String)
  | .structured items =>
      items.filterMap fun
        | .classItem cn _ _ => some (some cn)
        | _ => none
  | .legacy _ cls _ => cls

/-- The `methods` dictionary: in the structured format it is built by
`methods[cls['name']] = cls['methods']`, so a repeated class name
overwrites the earlier entry; in the legacy format it is taken as is. -/
def genMethods : StaticAnalysis → List (String × List (Option String))
  | .structured items =>
      items.foldl (fun d it =>
        match it with
        | .classItem cn _ ms => dictInsert d cn (ms.map (fun m => some m.name))
        | _ => d) []
  | .legacy _ _ meths => meths.map (fun p => (p.1, p.2.map (·.name)))

/-- The happy-path scenario emitted for a function. -/
def mkFnScenario (sid : Nat) (fn : String) : Scenario :=
  { id := "scenario_" ++ pad3 sid
    target_type := "function"
    target_name := fn
    description := "Test the '" ++ fn ++ "' function with typical inputs"
    coverage_target := "function:" ++ fn
    priority := "high" }

/-- The edge-case scenario emitted for a function with parameters. -/
def mkFnEdgeScenario (sid : Nat) (fn : String) : Scenario :=
  { id := "scenario_" ++ pad3 sid
    target_type := "function"
    target_name := fn
    description := "Test the '" ++ fn ++ "' function with edge case inputs"
    coverage_target := "function:" ++ fn
    priority := "medium" }

/-- The scenario emitted for a method. -/
def mkMethodScenario (sid : Nat) (cn mn : String) : Scenario :=
  { id := "scenario_" ++ pad3 sid
    target_type := "method"
    target_name := cn ++ "." ++ mn
    description := "Test the '" ++ mn ++ "' method of '" ++ cn ++ "' class"
    coverage_target := "method:" ++ cn ++ "." ++ mn
    priority := "high" }

/-- The instantiation scenario emitted for a class. -/
def mkClassScenario (sid : Nat) (cn : String) : Scenario :=
  { id := "scenario_" ++ pad3 sid
    target_type := "class"
    target_name := cn
    description := "Test instantiation and basic usage of '" ++ cn ++ "' class"
    coverage_target := "class:" ++ cn
    priority := "high" }

/-- Function pass: one basic scenario per entry plus one edge-case
scenario when the parameter list is truthy (non-empty). -/
def fnPass : List (Option String × Option (List ParamInfo)) → Nat →
    List Scenario × Nat
  | [], sid => ([], sid)
  | (name, params) :: rest, sid =>
      let fn := name.getD "unknown"
      let ps := params.getD []
      if ps.isEmpty then
        let r := fnPass rest (sid + 1)
        (mkFnScenario sid fn :: r.1, r.2)
      else
        let r := fnPass rest (sid + 2)
        (mkFnScenario sid fn :: mkFnEdgeScenario (sid + 1) fn :: r.1, r.2)

/-- Method pass over one class's method list, skipping excluded magic
methods. -/
def methodPassOne (cn : String) : List (Option String) → Nat →
    List Scenario × Nat
  | [], sid => ([], sid)
  | mname :: rest, sid =>
      let mn := mname.getD "unknown"
      if is_excluded_magic mn then methodPassOne cn rest sid
      else
        let r := methodPassOne cn rest (sid + 1)
        (mkMethodScenario sid cn mn :: r.1, r.2)

/-- Method pass over the methods dictionary. -/
def methodPass : List (String × List (Option String)) → Nat →
    List Scenario × Nat
  | [], sid => ([], sid)
  | (cn, ms) :: rest, sid =>
      let one := methodPassOne cn ms sid
      let r := methodPass rest one.2
      (one.1 ++ r.1, r.2)

/-- Class-instantiation pass. -/
def classPass : List (Option String) → Nat → List Scenario × Nat
  | [], sid => ([], sid)
  | cname :: rest, sid =>
      let cn := cname.getD "unknown"
      let r := classPass rest (sid + 1)
      (mkClassScenario sid cn :: r.1, r.2)

/-- An entry of the optional `uncovered_units` argument: the code accepts
strings, dictionaries, and silently skips anything else. -/
inductive UncoveredUnit where
  | ustr (s : String)
  | udict (type_field : Option String) (name_field : Option String)
  | uother
deriving DecidableEq

/-- Python `s.split(':', 1)` restricted to the case `':' in s`: the part
before the first colon and the part after it. -/
def splitFirstColon (s : String) : String × String :=
  let parts := s.splitOn ":"
  (parts.headD "", String.intercalate ":" parts.tail)

/-- The (type, name) pair the focus pass derives from an uncovered unit,
`none` when the entry is skipped. -/
def parseUncovered : UncoveredUnit → Option (String × String)
  | .ustr s =>
      if pyIn ":" s then some (splitFirstColon s) else some ("unknown", s)
  | .udict t n => some (t.getD "unknown", n.getD "unknown")
  | .uother => none

/-- The focused scenario emitted for one uncovered unit. -/
def mkFocusScenario (sid : Nat) (ut un : String) (it : Int) : Scenario :=
  { id := "scenario_" ++ pad3 sid ++ "_focus"
    target_type := ut
    target_name := un
    description := "Focused coverage test for " ++ ut ++ " '" ++ un ++
      "' (iteration " ++ toString it ++ ")"
    coverage_target := ut ++ ":" ++ un
    priority := "critical"
    iteration_focus := true }

/-- Focus pass over the uncovered units. -/
def focusPass (it : Int) : List UncoveredUnit → Nat → List Scenario × Nat
  | [], sid => ([], sid)
  | u :: rest, sid =>
      match parseUncovered u with
      | none => focusPass it rest sid
      | some (ut, un) =>
          let r := focusPass it rest (sid + 1)
          (mkFocusScenario sid ut un it :: r.1, r.2)

/-- Result dictionary of `generate_coverage_focused_scenarios` (the
generation-metadata entries are inlined as fields). -/
structure GenResult where
  scenarios : List Scenario
  total_scenarios : Nat
  coverage_targets : List String
  gen_iteration : Int
  focused_on_uncovered : Bool
  total_functions : Nat
  total_classes : Nat
  total_methods : Nat
deriving DecidableEq

/-- `generate_coverage_focused_scenarios(static_analysis,
uncovered_units, iteration_count)`.  Scenario ids start at 1 and are
threaded through the four passes in order. -/
def generate_coverage_focused_scenarios (static_analysis : StaticAnalysis)
    (uncovered_units : Option (List UncoveredUnit)) (iteration_count : Int) :
    GenResult :=
  let fns := genFunctions static_analysis
  let cls := genClasses static_analysis
  let meths := genMethods static_analysis
  let p1 := fnPass fns 1
  let p2 := methodPass meths p1.2
  let p3 := classPass cls p2.2
  let uncov := uncovered_units.getD []
  let p4 :=
    if ¬uncov.isEmpty ∧ iteration_count > 0 then focusPass iteration_count uncov p3.2
    else ([], p3.2)
  let scenarios := p1.1 ++ p2.1 ++ p3.1 ++ p4.1
  { scenarios := scenarios
    total_scenarios := scenarios.length
    coverage_targets := scenarios.map (·.coverage_target)
    gen_iteration := iteration_count
    focused_on_uncovered := !uncov.isEmpty
    total_functions := fns.length
    total_classes := cls.length
    total_methods := (meths.map (fun p => p.2.length)).sum }

/-! ## Test-case status tracker (`agents/test_case_status_tracker/tools.py`) -/

/-- One `TestCaseRecord` (statuses are the dataclass's string values:
`pending`, `passed`, `failed`, `syntax_error`, `skipped`). -/
structure TestRecord where
  id : String
  scenario_description : String
  target_name : String
  status : String
  last_error : String := ""
  iteration_passed : Int := -1
  iteration_failed : Int := -1
  test_code : String := ""
  execution_output : String := ""
deriving DecidableEq

/-- The `status_summary` dictionary (fixed five keys). -/
structure StatusCounts where
  pending : Nat
  passed : Nat
  failed : Nat
  stx_error : Nat
  skipped : Nat
deriving DecidableEq

/-- The tracking dictionary.  `test_records` is an insertion-ordered
dictionary keyed by record id, modelled as the list of its values (each
value carries its key). -/
structure TrackingData where
  test_records : List TestRecord
  total_tests : Nat
  status_summary : StatusCounts
  current_iteration : Int
  last_update : Option String := none
deriving DecidableEq

/-- A scenario dictionary as consumed by the tracker's initialization
(every key read with `.get`, so each may be absent). -/
structure LooseScenario where
  id : Option String
  description : Option String
  target_name : Option String
deriving DecidableEq

/-- The record-construction loop of the tracker's initialization:
`test_records[test_id] = record`, with the default id generated from the
current dictionary size. -/
def initRecordsLoop : List LooseScenario → List TestRecord → List TestRecord
  | [], acc => acc
  | sc :: rest, acc =>
      let test_id := sc.id.getD ("test_" ++ pad3 (acc.length + 1))
      let record : TestRecord :=
        { id := test_id
          scenario_description := sc.description.getD ""
          target_name := sc.target_name.getD ""
          status := "pending" }
      initRecordsLoop rest
        ((dictInsert (acc.map (fun r => (r.id, r))) test_id record).map (·.2))

/-- The tracker's initialization tool: one record per scenario, all in
the `pending` state, keyed by the scenario's id (or a generated default
id). -/
def init_test_status_tracking (test_scenarios : List LooseScenario) :
    TrackingData :=
  let records := initRecordsLoop test_scenarios []
  { test_records := records
    total_tests := records.length
    status_summary :=
      { pending := records.length, passed := 0, failed := 0
        stx_error := 0, skipped := 0 }
    current_iteration := 0 }

/-- One entry of `test_results["test_details"]` (string fields read with
`.get` and constant-string defaults, hence plain strings). -/
structure ExecDetail where
  test_name : String
  status : String
  error : String
  output : String
deriving DecidableEq

/-- The `test_results` argument of the status update. -/
structure TestResults where
  test_details : List ExecDetail
  status : String
  error_summary : Option String
deriving DecidableEq

/-- The record-matching predicate: the reported test name is a substring
of the scenario description, or equals the target name, or equals the
record's id. -/
def matchesRecord (test_name : String) (r : TestRecord) : Bool :=
  pyIn test_name r.scenario_description || test_name == r.target_name ||
    r.id == test_name

/-- The status mutation applied to a matched record. -/
def applyResult (r : TestRecord) (res : ExecDetail) (iteration : Int) :
    TestRecord :=
  let r' :=
    if res.status == "PASS" then
      { r with status := "passed", iteration_passed := iteration,
               last_error := "" }
    else if pyIn "SyntaxError" res.error || pyIn "ImportError" res.error then
      { r with status := "syntax_error", iteration_failed := iteration,
               last_error := res.error }
    else
      { r with status := "failed", iteration_failed := iteration,
               last_error := res.error }
  { r' with execution_output := res.output }

/-- Processing of a single execution result: find the first matching
record (dictionary iteration order) and mutate it; an unmatched result is
ignored. -/
def stepResult (records : List TestRecord) (res : ExecDetail)
    (iteration : Int) : List TestRecord :=
  match records.find? (fun r => matchesRecord res.test_name r) with
  | none => records
  | some hit =>
      records.map (fun r => if r.id == hit.id then applyResult r res iteration else r)

/-- The overall-status fallback when no detailed results are present:
`PASS` marks every still-pending record passed. -/
def markPendingPassed (iteration : Int) (r : TestRecord) : TestRecord :=
  if r.status == "pending" then
    { r with status := "passed", iteration_passed := iteration }
  else r

/-- The overall-status fallback for `FAIL`/`ERROR`: every still-pending
record becomes failed (or syntax_error when the error summary mentions a
syntax or import error). -/
def markPendingFailed (iteration : Int) (error_message : String)
    (r : TestRecord) : TestRecord :=
  if r.status == "pending" then
    if pyIn "SyntaxError" error_message || pyIn "ImportError" error_message then
      { r with status := "syntax_error", iteration_failed := iteration,
               last_error := error_message }
    else
      { r with status := "failed", iteration_failed := iteration,
               last_error := error_message }
  else r

/-- The status-summary recount at the end of the update: one counter per
known status value; a record with any other status is not counted. -/
def recount (records : List TestRecord) : StatusCounts :=
  { pending := records.countP (fun r => r.status == "pending")
    passed := records.countP (fun r => r.status == "passed")
    failed := records.countP (fun r => r.status == "failed")
    stx_error := records.countP (fun r => r.status == "syntax_error")
    skipped := records.countP (fun r => r.status == "skipped") }

/-- `update_test_case_status(tracking_data, test_results,
iteration_count)`. -/
def update_test_case_status (tracking_data : TrackingData)
    (test_results : TestResults) (iteration_count : Int) : TrackingData :=
  let records := tracking_data.test_records
  let records' :=
    if ¬test_results.test_details.isEmpty then
      test_results.test_details.foldl
        (fun recs res => stepResult recs res iteration_count) records
    else if test_results.status == "PASS" then
      records.map (markPendingPassed iteration_count)
    else if test_results.status == "FAIL" || test_results.status == "ERROR" then
      records.map
        (markPendingFailed iteration_count
          (test_results.error_summary.getD "Execution failed"))
    else records
  { tracking_data with
      test_records := records'
      status_summary := recount records'
      current_iteration := iteration_count
      last_update := some ("iteration_" ++ toString iteration_count) }

/-- One entry of the list returned by `get_passed_test_cases`. -/
structure PassedEntry where
  test_id : String
  description : String
  target_name : String
  test_code : String
  iteration_passed : Int
  preserve : Bool
deriving DecidableEq

/-- Projection of a passing record into its returned entry. -/
def passedEntry (r : TestRecord) : PassedEntry :=
  { test_id := r.id
    description := r.scenario_description
    target_name := r.target_name
    test_code := r.test_code
    iteration_passed := r.iteration_passed
    preserve := true }

/-- `get_passed_test_cases(tracking_data)`. -/
def get_passed_test_cases (tracking_data : TrackingData) : List PassedEntry :=
  (tracking_data.test_records.filter (fun r => r.status == "passed")).map
    passedEntry

/-- One entry of the list returned by `get_failed_test_cases`. -/
structure FailedEntry where
  test_id : String
  description : String
  target_name : String
  status : String
  error : String
  needs_regeneration : Bool
deriving DecidableEq

/-- `get_failed_test_cases(tracking_data)`. -/
def get_failed_test_cases (tracking_data : TrackingData) : List FailedEntry :=
  (tracking_data.test_records.filter
    (fun r => r.status == "failed" || r.status == "syntax_error")).map
    (fun r =>
      { test_id := r.id
        description := r.scenario_description
        target_name := r.target_name
        status := r.status
        error := r.last_error
        needs_regeneration := true })

/-- The summary dictionary returned by `get_status_summary`. -/
structure StatusSummary where
  overall_status : String
  success_rate : ℚ
  total_tests : Nat
  status_breakdown : StatusCounts
  tests_needing_attention : Nat
  tests_ready : Nat
  current_iteration : Int
  all_tests_passing : Bool
  has_failures : Bool
deriving DecidableEq

/-- `get_status_summary(tracking_data)`: the success rate is computed
over executed (non-pending, non-skipped) tests only, `0` when none has
executed. -/
def get_status_summary (tracking_data : TrackingData) : StatusSummary :=
  let c := tracking_data.status_summary
  let executed := c.passed + c.failed + c.stx_error
  let raw_rate : ℚ :=
    if executed > 0 then (c.passed : ℚ) / (executed : ℚ) * 100 else 0
  { overall_status :=
      if c.passed = tracking_data.total_tests then "all_passed"
      else if c.failed = 0 ∧ c.stx_error = 0 then "partial_success"
      else if c.stx_error > 0 then "syntax_issues"
      else "execution_issues"
    success_rate := pyRound2 raw_rate
    total_tests := tracking_data.total_tests
    status_breakdown := c
    tests_needing_attention := c.failed + c.stx_error
    tests_ready := c.passed
    current_iteration := tracking_data.current_iteration
    all_tests_passing := decide (c.passed = tracking_data.total_tests)
    has_failures := decide (c.failed + c.stx_error > 0) }

/-! ## Execution loop controller (`agents/execution_loop_controller/tools.py`) -/

/-- `EXECUTION_MAX_ITERATIONS` from `agents/config.py`. -/
def EXECUTION_MAX_ITERATIONS : Int := 10

/-- `EXECUTION_SUCCESS_THRESHOLD` from `agents/config.py`. -/
def EXECUTION_SUCCESS_THRESHOLD : ℚ := 95

/-- The dictionary returned by `should_continue_execution_loop` (reason
strings not modelled). -/
structure ExecLoopResult where
  should_continue : Bool
  final_success_rate : Option ℚ := none
  exit_type : Option String := none
  tests_still_failing : Option Nat := none
  current_success_rate : Option ℚ := none
  failing_tests : Option Nat := none
  remaining_iterations : Option Int := none
deriving DecidableEq

/-- `should_continue_execution_loop(test_status_summary, iteration_count,
max_iterations)`. -/
def should_continue_execution_loop (summary : StatusSummary)
    (iteration_count max_iterations : Int) : ExecLoopResult :=
  let success_rate := summary.success_rate
  let attention := summary.tests_needing_attention
  if iteration_count ≥ max_iterations then
    { should_continue := false
      final_success_rate := some success_rate
      exit_type := some "max_iterations"
      tests_still_failing := some attention }
  else if summary.all_tests_passing then
    { should_continue := false
      final_success_rate := some success_rate
      exit_type := some "all_passed"
      tests_still_failing := some 0 }
  else if success_rate ≥ EXECUTION_SUCCESS_THRESHOLD ∧ iteration_count ≥ 2 then
    { should_continue := false
      final_success_rate := some success_rate
      exit_type := some "threshold_met"
      tests_still_failing := some attention }
  else
    { should_continue := true
      current_success_rate := some success_rate
      failing_tests := some attention
      remaining_iterations := some (max_iterations - iteration_count) }

/-! ## Concrete inputs used by counterexamples and witnesses -/

/-- A one-function inventory (`def f(): ...`). -/
def oneFnAnalysis : StaticAnalysis :=
  .structured [.function (funcDetails "f" none [] none)]

/-- A scenario targeting function `f`. -/
def scenF : Scenario :=
  { id := "s1", target_type := "function", target_name := "f",
    description := "", coverage_target := "", priority := "" }

/-- A scenario targeting the non-existent function `g`. -/
def scenG : Scenario :=
  { id := "s2", target_type := "function", target_name := "g",
    description := "", coverage_target := "", priority := "" }

/-- A class `C` with the whitelisted `__init__` and the non-whitelisted
`__eq__`. -/
def dunderClassAnalysis : StaticAnalysis :=
  .structured [.classItem "C" none
    [funcDetails "__init__" none [] none, funcDetails "__eq__" none [] none]]

/-- A record that already passed in an earlier iteration. -/
def passedRec : TestRecord :=
  { id := "t1", scenario_description := "alpha scenario",
    target_name := "alpha", status := "passed" }

/-- A still-pending record. -/
def pendingRec : TestRecord :=
  { id := "t2", scenario_description := "beta scenario",
    target_name := "beta", status := "pending" }

/-- Tracking state holding one passed and one pending record. -/
def trackingTwo : TrackingData :=
  { test_records := [passedRec, pendingRec], total_tests := 2,
    status_summary :=
      { pending := 1, passed := 1, failed := 0, stx_error := 0, skipped := 0 },
    current_iteration := 0 }

/-- An execution detail reporting a failure of the pending record. -/
def failDetail : ExecDetail :=
  { test_name := "beta", status := "FAIL",
    error := "AssertionError: boom", output := "out" }

/-- Execution results whose only detail matches the pending record, with
overall status FAIL. -/
def failResults : TestResults :=
  { test_details := [failDetail], status := "FAIL", error_summary := none }

/-! ## Helper lemmas -/

/-- Is a statement a `FunctionDef` with the given name? -/
def isFuncDefNamed (m : String) : PyStmt → Bool
  | .funcDef n _ _ _ _ => n == m
  | _ => false

theorem collectMethods_countP (m : String) (body : List PyStmt) :
    (collectMethods body).countP (fun f => f.name == m) =
      body.countP (isFuncDefNamed m) := by
  induction body with
  | nil => rfl
  | cons s rest ih =>
      cases s with
      | funcDef n d ps r b =>
          simpa [collectMethods, List.filterMap_cons, List.countP_cons,
            isFuncDefNamed, funcDetails] using ih
      | classDef n d b =>
          simpa [collectMethods, List.filterMap_cons, List.countP_cons,
            isFuncDefNamed] using ih
      | other children =>
          simpa [collectMethods, List.filterMap_cons, List.countP_cons,
            isFuncDefNamed] using ih

theorem pyRound2_mono {x y : ℚ} (h : x ≤ y) : pyRound2 x ≤ pyRound2 y := by
  unfold pyRound2
  have hfl : round (x * 100) ≤ round (y * 100) := by
    rw [round_eq, round_eq]
    exact Int.floor_le_floor (by linarith)
  have : ((round (x * 100) : ℤ) : ℚ) ≤ ((round (y * 100) : ℤ) : ℚ) :=
    Int.cast_le.mpr hfl
  linarith

theorem pyRound2_intCast (n : ℤ) : pyRound2 (n : ℚ) = n := by
  unfold pyRound2
  rw [show ((n : ℚ) * 100) = ((n * 100 : ℤ) : ℚ) by push_cast; ring,
    round_intCast]
  push_cast
  field_simp

/-! ## Claim C4 -/

/-- **C4** (confirmed): for a source defining a class `C` whose body
contains exactly one `FunctionDef` named `m`, together with a top-level
function also named `m`, `analyze_code_structure` records exactly one
method entry for `C.m` (inside the class entry's methods list) and
exactly one top-level function entry named `m`: the method is not
double-counted as a function and the function is not absorbed into the
class. -/
theorem c4_method_function_disjoint
    (C m : String) (cdoc fdoc : Option String) (cbody fbody : List PyStmt)
    (ps : List ParamInfo) (ret : Option String)
    (hm : cbody.countP (isFuncDefNamed m) = 1) :
    analyze_code_structure
        (.ok [.classDef C cdoc cbody, .funcDef m fdoc ps ret fbody]) "python" =
      .success [.classItem C cdoc (collectMethods cbody),
        .function (funcDetails m fdoc ps ret)] ∧
    countMethodEntries [.classItem C cdoc (collectMethods cbody),
        .function (funcDetails m fdoc ps ret)] C m = 1 ∧
    countTopFns [.classItem C cdoc (collectMethods cbody),
        .function (funcDetails m fdoc ps ret)] m = 1 := by
  refine ⟨?_, ?_, ?_⟩
  · simp [analyze_code_structure,
      show (pyLower "python" == "python") = true by decide, visitList]
  · simp [countMethodEntries, collectMethods_countP, hm]
  · simp [countTopFns, List.countP_cons, funcDetails]

/-- Witness for C4 at a concrete source: `class C` with method `m` and a
top-level function `m`. -/
theorem c4_witness :
    analyze_code_structure
        (.ok [.classDef "C" none [.funcDef "m" none [] none []],
          .funcDef "m" none [] none []]) "python" =
      .success [.classItem "C" none
          (collectMethods [.funcDef "m" none [] none []]),
        .function (funcDetails "m" none [] none)] ∧
    countMethodEntries [.classItem "C" none
        (collectMethods [.funcDef "m" none [] none []]),
      .function (funcDetails "m" none [] none)] "C" "m" = 1 ∧
    countTopFns [.classItem "C" none
        (collectMethods [.funcDef "m" none [] none []]),
      .function (funcDetails "m" none [] none)] "m" = 1 :=
  c4_method_function_disjoint "C" "m" none none
    [.funcDef "m" none [] none []] [] [] none (by decide)

/-! ## Claim C6 -/

/-- **C6 counterexample**: for the language identifier `java` — which is
not the fully supported language `python` — `analyze_code_structure`
raises `NotImplementedError` instead of returning an
unsupported-language error result, refuting "never raises or crashes"
for every non-python language. -/
theorem c6_counterexample_java_raises :
    analyze_code_structure (.ok []) "java" =
      .raised "Java code analysis is not yet implemented." ∧
    ("java" : String) ≠ "python" := by
  constructor
  · simp [analyze_code_structure,
      show (pyLower "java" == "python") = false by decide,
      show (pyLower "java" == "java") = true by decide]
  · decide

/-- **C6 amended** (proved): for every source and every language whose
lower-cased form is neither `python` nor `java`, the analyzer returns
the clear unsupported-language error result and does not raise; `java`
alone raises `NotImplementedError`. -/
theorem c6_unsupported_language_error (source : ParsedSource)
    (language : String) (h1 : pyLower language ≠ "python")
    (h2 : pyLower language ≠ "java") :
    analyze_code_structure source language =
      .error ("Unsupported language: " ++ language) := by
  have e1 : (pyLower language == "python") = false := beq_eq_false_iff_ne.mpr h1
  have e2 : (pyLower language == "java") = false := beq_eq_false_iff_ne.mpr h2
  simp [analyze_code_structure, e1, e2]

/-- Witness for the amended C6 at language `ruby`. -/
theorem c6_witness :
    pyLower "ruby" ≠ "python" ∧ pyLower "ruby" ≠ "java" ∧
    analyze_code_structure (.ok []) "ruby" =
      .error ("Unsupported language: " ++ "ruby") :=
  ⟨by decide, by decide,
    c6_unsupported_language_error (.ok []) "ruby" (by decide) (by decide)⟩

/-! ## Claim C7 (counterexample part) -/

/-- **C7 counterexample**: extraction does not exclude non-whitelisted
magic methods.  For `class C` defining only `__eq__`, the extraction
output contains `__eq__` as a method entry of `C`, and the coverage
validator's method inventory built from that output is exactly
`{C.__eq__}` — the dunder method is a testable method unit of the
extraction output. -/
theorem c7_counterexample_dunder_extracted :
    analyze_code_structure
        (.ok [.classDef "C" none [.funcDef "__eq__" none [] none []]])
        "python" =
      .success [.classItem "C" none [funcDetails "__eq__" none [] none]] ∧
    is_excluded_magic "__eq__" = true ∧
    all_methods
        (.structured [.classItem "C" none [funcDetails "__eq__" none [] none]]) =
      {"C.__eq__"} := by
  refine ⟨?_, by decide, by decide⟩
  simp [analyze_code_structure,
    show (pyLower "python" == "python") = true by decide,
    visitList, collectMethods, funcDetails]

/-! ## Claim C1 -/

theorem pyRound2_natCast (n : ℕ) : pyRound2 (n : ℚ) = n := by
  simpa using pyRound2_intCast n

theorem pyRound2_zero : pyRound2 0 = 0 := by
  simpa using pyRound2_natCast 0

theorem pyRound2_hundred : pyRound2 100 = 100 := by
  simpa using pyRound2_natCast 100

/-- **C1 counterexample**: on the empty inputs `validate([], [])` the
overall coverage reported is `0`, not the `100` the claim asserts (the
`else 0` branch of the overall-coverage expression, unlike the
`else 100` of the per-category expressions). -/
theorem c1_counterexample_empty_overall_zero :
    (validate_scenario_coverage [] (.structured [])).overall_coverage = 0 ∧
    (validate_scenario_coverage [] (.structured [])).overall_coverage ≠ 100 := by
  constructor <;>
    simp [validate_scenario_coverage, all_functions, all_classes, all_methods,
      coveredSets, pyRound2_zero]

/-- **C1 amended** (proved): for every static-analysis input whose
extracted unit inventory is empty and every scenario list, the validator
returns 100% for the function, class and method categories, but `0` (not
100%) for overall coverage, with `meets_target = false`; it is a total
function (never raises). -/
theorem c1_empty_inventory_category_hundred_overall_zero
    (sa : StaticAnalysis) (scenarios : List Scenario)
    (hF : all_functions sa = ∅) (hC : all_classes sa = ∅)
    (hM : all_methods sa = ∅) :
    (validate_scenario_coverage scenarios sa).function_coverage = 100 ∧
    (validate_scenario_coverage scenarios sa).class_coverage = 100 ∧
    (validate_scenario_coverage scenarios sa).method_coverage = 100 ∧
    (validate_scenario_coverage scenarios sa).overall_coverage = 0 ∧
    (validate_scenario_coverage scenarios sa).meets_target = false := by
  simp [validate_scenario_coverage, hF, hC, hM, pyRound2_zero, pyRound2_hundred]

/-- Witness for the amended C1 at `validate([], [])`. -/
theorem c1_witness :
    all_functions (.structured []) = ∅ ∧
    (validate_scenario_coverage [] (.structured [])).function_coverage = 100 ∧
    (validate_scenario_coverage [] (.structured [])).overall_coverage = 0 :=
  ⟨by decide,
    (c1_empty_inventory_category_hundred_overall_zero (.structured []) []
      (by decide) (by decide) (by decide)).1,
    (c1_empty_inventory_category_hundred_overall_zero (.structured []) []
      (by decide) (by decide) (by decide)).2.2.2.1⟩


/-! ## Claim C3 -/

theorem addCovered_preserves {aF aC aM : Finset String} (sc : Scenario)
    (acc : Finset String × Finset String × Finset String)
    (hacc : acc.1 ⊆ aF ∧ acc.2.1 ⊆ aC ∧ acc.2.2 ⊆ aM)
    (hsc : (hitsFunction sc = true → sc.target_name ∈ aF) ∧
      (hitsFunction sc = false → hitsClass sc = true → sc.target_name ∈ aC) ∧
      (hitsFunction sc = false → hitsClass sc = false →
        hitsMethod sc = true → sc.target_name ∈ aM)) :
    (addCovered acc sc).1 ⊆ aF ∧ (addCovered acc sc).2.1 ⊆ aC ∧
      (addCovered acc sc).2.2 ⊆ aM := by
  obtain ⟨h1, h2, h3⟩ := hacc
  obtain ⟨g1, g2, g3⟩ := hsc
  unfold addCovered
  cases hf : hitsFunction sc
  · cases hc : hitsClass sc
    · cases hm : hitsMethod sc
      · simp only [hf, hc, hm, Bool.false_eq_true, if_false]
        exact ⟨h1, h2, h3⟩
      · simp only [hf, hc, hm, Bool.false_eq_true, if_false, if_true]
        exact ⟨h1, h2, Finset.insert_subset (g3 hf hc hm) h3⟩
    · simp only [hf, hc, Bool.false_eq_true, if_false, if_true]
      exact ⟨h1, Finset.insert_subset (g2 hf hc) h2, h3⟩
  · simp only [hf, if_true]
    exact ⟨Finset.insert_subset (g1 hf) h1, h2, h3⟩

theorem coveredFold_subset {aF aC aM : Finset String}
    (scenarios : List Scenario) :
    ∀ acc : Finset String × Finset String × Finset String,
    (∀ sc ∈ scenarios,
      (hitsFunction sc = true → sc.target_name ∈ aF) ∧
      (hitsFunction sc = false → hitsClass sc = true → sc.target_name ∈ aC) ∧
      (hitsFunction sc = false → hitsClass sc = false →
        hitsMethod sc = true → sc.target_name ∈ aM)) →
    acc.1 ⊆ aF ∧ acc.2.1 ⊆ aC ∧ acc.2.2 ⊆ aM →
    (scenarios.foldl addCovered acc).1 ⊆ aF ∧
      (scenarios.foldl addCovered acc).2.1 ⊆ aC ∧
      (scenarios.foldl addCovered acc).2.2 ⊆ aM := by
  induction scenarios with
  | nil => intro acc _ hacc; simpa using hacc
  | cons sc rest ih =>
      intro acc h hacc
      simp only [List.foldl_cons]
      exact ih (addCovered acc sc)
        (fun s hs => h s (List.mem_cons_of_mem _ hs))
        (addCovered_preserves sc acc hacc (h sc (List.mem_cons_self _ _)))

theorem ratio_le_hundred {c t : ℕ} (h : c ≤ t) :
    (if t > 0 then (c : ℚ) / (t : ℚ) * 100 else 0) ≤ 100 := by
  by_cases ht : t > 0
  · simp only [ht, if_true]
    have hdiv : (c : ℚ) / (t : ℚ) ≤ 1 := by
      rw [div_le_one (by exact_mod_cast ht)]
      exact_mod_cast h
    nlinarith
  · simp [ht]

/-- **C3 counterexample**: a scenario whose `target_name` does not name
any extracted unit still contributes coverage.  With the single
extracted function `f` and scenarios targeting `f` and the non-existent
`g`, the covered-functions set contains `g` (so it is not a subset of
the inventory), `covered_units = 2 > 1 = total_units`, overall coverage
is 200%, and `meets_target` is spuriously true. -/
theorem c3_counterexample_phantom_target :
    "g" ∈ (validate_scenario_coverage [scenF, scenG]
        oneFnAnalysis).covered_functions ∧
    "g" ∉ all_functions oneFnAnalysis ∧
    (validate_scenario_coverage [scenF, scenG] oneFnAnalysis).covered_units = 2 ∧
    (validate_scenario_coverage [scenF, scenG] oneFnAnalysis).total_units = 1 ∧
    (validate_scenario_coverage [scenF, scenG] oneFnAnalysis).overall_coverage
      = 200 ∧
    (validate_scenario_coverage [scenF, scenG] oneFnAnalysis).meets_target
      = true := by
  refine ⟨by decide, by decide, by decide, by decide, ?_, ?_⟩
  · simp only [validate_scenario_coverage]
    rw [show (all_functions oneFnAnalysis).card = 1 by decide,
      show (all_classes oneFnAnalysis).card = 0 by decide,
      show (all_methods oneFnAnalysis).card = 0 by decide,
      show (coveredSets [scenF, scenG]).1.card = 2 by decide,
      show (coveredSets [scenF, scenG]).2.1.card = 0 by decide,
      show (coveredSets [scenF, scenG]).2.2.card = 0 by decide]
    norm_num
    simpa using pyRound2_natCast 200
  · simp only [validate_scenario_coverage]
    rw [show (all_functions oneFnAnalysis).card = 1 by decide,
      show (all_classes oneFnAnalysis).card = 0 by decide,
      show (all_methods oneFnAnalysis).card = 0 by decide,
      show (coveredSets [scenF, scenG]).1.card = 2 by decide,
      show (coveredSets [scenF, scenG]).2.1.card = 0 by decide,
      show (coveredSets [scenF, scenG]).2.2.card = 0 by decide]
    norm_num

/-- **C3 amended** (proved): when every scenario's target name does map
to an extracted unit of the category the `if/elif` chain assigns it to,
the covered sets are subsets of the corresponding inventory sets,
`covered_units ≤ total_units`, and overall coverage does not exceed
100%.  (Unmapped targets violate all three bounds, per the
counterexample.) -/
theorem c3_covered_subset_of_mapped (sa : StaticAnalysis)
    (scenarios : List Scenario)
    (h : ∀ sc ∈ scenarios,
      (hitsFunction sc = true → sc.target_name ∈ all_functions sa) ∧
      (hitsFunction sc = false → hitsClass sc = true →
        sc.target_name ∈ all_classes sa) ∧
      (hitsFunction sc = false → hitsClass sc = false →
        hitsMethod sc = true → sc.target_name ∈ all_methods sa)) :
    (validate_scenario_coverage scenarios sa).covered_functions ⊆
      all_functions sa ∧
    (validate_scenario_coverage scenarios sa).covered_classes ⊆
      all_classes sa ∧
    (validate_scenario_coverage scenarios sa).covered_methods ⊆
      all_methods sa ∧
    (validate_scenario_coverage scenarios sa).covered_units ≤
      (validate_scenario_coverage scenarios sa).total_units ∧
    (validate_scenario_coverage scenarios sa).overall_coverage ≤ 100 := by
  have hsub := coveredFold_subset scenarios (∅, ∅, ∅) h (by simp)
  have hcs : coveredSets scenarios = scenarios.foldl addCovered (∅, ∅, ∅) := rfl
  have hcard : (coveredSets scenarios).1.card + (coveredSets scenarios).2.1.card +
      (coveredSets scenarios).2.2.card ≤
      (all_functions sa).card + (all_classes sa).card + (all_methods sa).card := by
    rw [hcs]
    have := Finset.card_le_card hsub.1
    have := Finset.card_le_card hsub.2.1
    have := Finset.card_le_card hsub.2.2
    omega
  refine ⟨?_, ?_, ?_, ?_, ?_⟩ <;> simp only [validate_scenario_coverage]
  · rw [hcs]; exact hsub.1
  · rw [hcs]; exact hsub.2.1
  · rw [hcs]; exact hsub.2.2
  · exact hcard
  · exact le_trans (pyRound2_mono (ratio_le_hundred hcard))
      (le_of_eq pyRound2_hundred)

/-- Witness for the amended C3: one function `f`, one scenario mapped to
`f`. -/
theorem c3_witness :
    (validate_scenario_coverage [scenF] oneFnAnalysis).covered_functions ⊆
      all_functions oneFnAnalysis ∧
    (validate_scenario_coverage [scenF] oneFnAnalysis).covered_classes ⊆
      all_classes oneFnAnalysis ∧
    (validate_scenario_coverage [scenF] oneFnAnalysis).covered_methods ⊆
      all_methods oneFnAnalysis ∧
    (validate_scenario_coverage [scenF] oneFnAnalysis).covered_units ≤
      (validate_scenario_coverage [scenF] oneFnAnalysis).total_units ∧
    (validate_scenario_coverage [scenF] oneFnAnalysis).overall_coverage ≤ 100 :=
  c3_covered_subset_of_mapped oneFnAnalysis [scenF] (by decide)

/-! ## Claim C2 -/

/-- **C2 counterexample**: with empty/invalid coverage-validation data
(Python `{}` is falsy) the controller's deferred branch runs before the
iteration-limit check and returns `should_continue = True` even though
`iteration_count = 5 ≥ 5 = max_iterations`. -/
theorem c2_counterexample_deferred_beats_cap :
    (should_continue_coverage_loop
      { present := false, has_summary := false, summary_overall := none,
        coverage_percentage := none, meets_target := false } 5 5).should_continue
      = true ∧
    (should_continue_coverage_loop
      { present := false, has_summary := false, summary_overall := none,
        coverage_percentage := none, meets_target := false } 5 5).deferred
      = true ∧
    (5 : Int) ≥ 5 := by
  refine ⟨by decide, by decide, by decide⟩

/-- **C2 amended** (proved): for present (truthy dictionary)
coverage-validation data — however malformed its contents — whenever
`iteration_count ≥ max_iterations` the controller returns
`should_continue = False` with exit type `max_iterations`.  The
termination guarantee fails only for absent/empty/non-dict validation
data, which take the deferred branch (see the counterexample). -/
theorem c2_cap_when_present (cv : CoverageValidationInput)
    (iteration_count max_iterations : Int) (hp : cv.present = true)
    (hi : iteration_count ≥ max_iterations) :
    (should_continue_coverage_loop cv iteration_count
        max_iterations).should_continue = false ∧
    (should_continue_coverage_loop cv iteration_count
        max_iterations).exit_type = some "max_iterations" := by
  unfold should_continue_coverage_loop
  simp [hp, hi]

/-- Witness for the amended C2: well-formed data with 50% coverage at
`iteration_count = max_iterations = 5`. -/
theorem c2_witness :
    (should_continue_coverage_loop
      { present := true, has_summary := true, summary_overall := some 50,
        coverage_percentage := none, meets_target := false } 5 5).should_continue
      = false ∧
    (should_continue_coverage_loop
      { present := true, has_summary := true, summary_overall := some 50,
        coverage_percentage := none, meets_target := false } 5 5).exit_type
      = some "max_iterations" :=
  c2_cap_when_present _ 5 5 rfl (by decide)

/-! ## Claim C5 -/

/-- **C5** (confirmed): for present coverage-validation data, when
`iteration_count < max_iterations` and the 100% target branch does not
fire, the controller stops with exit type `acceptable_threshold` iff the
extracted overall coverage is at least `MIN_COVERAGE_THRESHOLD = 80` and
`iteration_count ≥ 2`; in every remaining case it continues, reporting
the gap `COVERAGE_TARGET − current` and the remaining iteration
budget. -/
theorem c5_threshold_exit_iff (cv : CoverageValidationInput)
    (iteration_count max_iterations : Int) (hp : cv.present = true)
    (hi : iteration_count < max_iterations)
    (ht : ¬(cv.meets_target = true ∧ extract_overall cv ≥ COVERAGE_TARGET)) :
    (((should_continue_coverage_loop cv iteration_count
          max_iterations).should_continue = false ∧
      (should_continue_coverage_loop cv iteration_count
          max_iterations).exit_type = some "acceptable_threshold") ↔
      (extract_overall cv ≥ MIN_COVERAGE_THRESHOLD ∧ iteration_count ≥ 2)) ∧
    (¬(extract_overall cv ≥ MIN_COVERAGE_THRESHOLD ∧ iteration_count ≥ 2) →
      (should_continue_coverage_loop cv iteration_count
          max_iterations).should_continue = true ∧
      (should_continue_coverage_loop cv iteration_count
          max_iterations).coverage_gap
        = some (COVERAGE_TARGET - extract_overall cv) ∧
      (should_continue_coverage_loop cv iteration_count
          max_iterations).remaining_iterations
        = some (max_iterations - iteration_count)) := by
  have hnot : ¬(iteration_count ≥ max_iterations) := not_le.mpr hi
  by_cases hC : extract_overall cv ≥ MIN_COVERAGE_THRESHOLD ∧ iteration_count ≥ 2
  · unfold should_continue_coverage_loop
    simp [hp, hnot, ht, hC]
  · unfold should_continue_coverage_loop
    simp [hp, hnot, ht, hC]

/-- Witness for C5: 50% coverage at iteration 0 of 5 — the controller
continues with gap 50 and 5 remaining iterations. -/
theorem c5_witness :
    ¬(extract_overall
        { present := true, has_summary := true, summary_overall := some 50,
          coverage_percentage := none, meets_target := false }
        ≥ MIN_COVERAGE_THRESHOLD ∧ (0 : Int) ≥ 2) ∧
    (should_continue_coverage_loop
      { present := true, has_summary := true, summary_overall := some 50,
        coverage_percentage := none, meets_target := false } 0 5).should_continue
      = true ∧
    (should_continue_coverage_loop
      { present := true, has_summary := true, summary_overall := some 50,
        coverage_percentage := none, meets_target := false } 0 5).coverage_gap
      = some (COVERAGE_TARGET - extract_overall
        { present := true, has_summary := true, summary_overall := some 50,
          coverage_percentage := none, meets_target := false }) ∧
    (should_continue_coverage_loop
      { present := true, has_summary := true, summary_overall := some 50,
        coverage_percentage := none, meets_target := false } 0 5).remaining_iterations
      = some 5 := by
  have h := c5_threshold_exit_iff
    { present := true, has_summary := true, summary_overall := some 50,
      coverage_percentage := none, meets_target := false } 0 5 rfl (by decide)
    (by intro hcon; exact absurd hcon.1 (by decide))
  have hC : ¬(extract_overall
      { present := true, has_summary := true, summary_overall := some 50,
        coverage_percentage := none, meets_target := false }
      ≥ MIN_COVERAGE_THRESHOLD ∧ (0 : Int) ≥ 2) := by
    intro hcon
    exact absurd hcon.2 (by decide)
  have h2 := h.2 hC
  exact ⟨hC, h2.1, h2.2.1, by rw [h2.2.2]; norm_num⟩

/-! ## Claims C7 (amended part) and C8: generator pass lemmas -/

theorem generate_none_scenarios (sa : StaticAnalysis) (it : Int) :
    (generate_coverage_focused_scenarios sa none it).scenarios =
      (fnPass (genFunctions sa) 1).1 ++
      ((methodPass (genMethods sa) (fnPass (genFunctions sa) 1).2).1 ++
      (classPass (genClasses sa)
        (methodPass (genMethods sa) (fnPass (genFunctions sa) 1).2).2).1) := by
  unfold generate_coverage_focused_scenarios
  simp

theorem fnPass_mem_type (fs : List (Option String × Option (List ParamInfo))) :
    ∀ sid s, s ∈ (fnPass fs sid).1 → s.target_type = "function" := by
  induction fs with
  | nil => intro sid s h; simp [fnPass] at h
  | cons p rest ih =>
      intro sid s h
      obtain ⟨name, params⟩ := p
      unfold fnPass at h
      by_cases hps : (params.getD []).isEmpty
      · simp only [hps, if_true] at h
        rcases List.mem_cons.mp h with rfl | h
        · rfl
        · exact ih _ s h
      · simp only [hps, Bool.false_eq_true, if_false] at h
        rcases List.mem_cons.mp h with rfl | h
        · rfl
        · rcases List.mem_cons.mp h with rfl | h
          · rfl
          · exact ih _ s h

theorem methodPassOne_mem (cn : String) (ms : List (Option String)) :
    ∀ sid s, s ∈ (methodPassOne cn ms sid).1 →
      ∃ k mn, s = mkMethodScenario k cn mn ∧ is_excluded_magic mn = false := by
  induction ms with
  | nil => intro sid s h; simp [methodPassOne] at h
  | cons mname rest ih =>
      intro sid s h
      unfold methodPassOne at h
      by_cases hex : is_excluded_magic (mname.getD "unknown")
      · simp only [hex, if_true] at h
        exact ih _ s h
      · simp only [hex, Bool.false_eq_true, if_false] at h
        rcases List.mem_cons.mp h with rfl | h
        · exact ⟨sid, mname.getD "unknown", rfl, by simpa using hex⟩
        · exact ih _ s h

theorem methodPass_mem (ml : List (String × List (Option String))) :
    ∀ sid s, s ∈ (methodPass ml sid).1 →
      ∃ k cn mn, s = mkMethodScenario k cn mn ∧ is_excluded_magic mn = false := by
  induction ml with
  | nil => intro sid s h; simp [methodPass] at h
  | cons e rest ih =>
      intro sid s h
      obtain ⟨cn, ms⟩ := e
      unfold methodPass at h
      rcases List.mem_append.mp h with h | h
      · obtain ⟨k, mn, rfl, hmn⟩ := methodPassOne_mem cn ms _ s h
        exact ⟨k, cn, mn, rfl, hmn⟩
      · exact ih _ s h

theorem classPass_mem (cl : List (Option String)) :
    ∀ sid s, s ∈ (classPass cl sid).1 → s.target_type = "class" := by
  induction cl with
  | nil => intro sid s h; simp [classPass] at h
  | cons c rest ih =>
      intro sid s h
      unfold classPass at h
      rcases List.mem_cons.mp h with rfl | h
      · rfl
      · exact ih _ s h

/-- The dunder whitelist applies only to the unit-to-scenario mapping:
the gap-focus pass copies uncovered unit names verbatim, so a call with
an uncovered `method` unit named `C.__eq__` at `iteration_count = 1`
emits a `method` scenario targeting the excluded dunder. -/
theorem focusPass_copies_dunder_verbatim :
    (generate_coverage_focused_scenarios (.structured [])
        (some [.udict (some "method") (some "C.__eq__")]) 1).scenarios
      = [mkFocusScenario 1 "method" "C.__eq__" 1] ∧
    (mkFocusScenario 1 "method" "C.__eq__" 1).target_type = "method" ∧
    (mkFocusScenario 1 "method" "C.__eq__" 1).target_name = "C.__eq__" ∧
    is_excluded_magic "__eq__" = true := by
  refine ⟨by decide, rfl, rfl, by decide⟩

/-- **C7 amended** (proved): extraction keeps non-whitelisted dunder
methods in the inventory (see the counterexample), and the whitelist
filter lives in the generator's deterministic unit-to-scenario mapping:
on a generation call with no uncovered-unit focus
(`uncovered_units = None`), every method scenario emitted by
`generate_coverage_focused_scenarios` targets `cn.mn` for a method name
`mn` that is not an excluded magic method.  The qualification is
necessary: the gap-focus pass applies no dunder filter
(`focusPass_copies_dunder_verbatim`). -/
theorem c7_method_scenarios_not_excluded (sa : StaticAnalysis) (it : Int)
    (s : Scenario)
    (hs : s ∈ (generate_coverage_focused_scenarios sa none it).scenarios)
    (hm : s.target_type = "method") :
    ∃ cn mn, s.target_name = cn ++ "." ++ mn ∧ is_excluded_magic mn = false := by
  rw [generate_none_scenarios] at hs
  rcases List.mem_append.mp hs with h | h
  · have := fnPass_mem_type _ _ s h
    rw [this] at hm
    exact absurd hm (by decide)
  · rcases List.mem_append.mp h with h | h
    · obtain ⟨k, cn, mn, rfl, hmn⟩ := methodPass_mem _ _ s h
      exact ⟨cn, mn, rfl, hmn⟩
    · have := classPass_mem _ _ s h
      rw [this] at hm
      exact absurd hm (by decide)

/-- Witness for the amended C7: for `class C` with methods `__init__`
and `__eq__`, the emitted method scenario for `C.__init__` is in the
output and its method name is not excluded. -/
theorem c7_witness :
    mkMethodScenario 1 "C" "__init__" ∈
      (generate_coverage_focused_scenarios dunderClassAnalysis none 0).scenarios ∧
    (mkMethodScenario 1 "C" "__init__").target_type = "method" ∧
    ∃ cn mn, (mkMethodScenario 1 "C" "__init__").target_name = cn ++ "." ++ mn ∧
      is_excluded_magic mn = false :=
  ⟨by decide, rfl,
    c7_method_scenarios_not_excluded dunderClassAnalysis 0
      (mkMethodScenario 1 "C" "__init__") (by decide) rfl⟩

theorem fnPass_count_high (fs : List (Option String × Option (List ParamInfo))) :
    ∀ sid, ((fnPass fs sid).1).countP
      (fun s => s.target_type == "function" && s.priority == "high")
      = fs.length := by
  induction fs with
  | nil => intro sid; simp [fnPass]
  | cons p rest ih =>
      intro sid
      obtain ⟨name, params⟩ := p
      unfold fnPass
      by_cases hps : (params.getD []).isEmpty
      · simp [hps, List.countP_cons, mkFnScenario, ih]
      · simp [hps, List.countP_cons, mkFnScenario, mkFnEdgeScenario, ih]

theorem fnPass_count_med (fs : List (Option String × Option (List ParamInfo))) :
    ∀ sid, ((fnPass fs sid).1).countP
      (fun s => s.target_type == "function" && s.priority == "medium")
      = fs.countP (fun p => !(p.2.getD []).isEmpty) := by
  induction fs with
  | nil => intro sid; simp [fnPass]
  | cons p rest ih =>
      intro sid
      obtain ⟨name, params⟩ := p
      unfold fnPass
      by_cases hps : (params.getD []).isEmpty
      · simp [hps, List.countP_cons, mkFnScenario, ih]
      · simp [hps, List.countP_cons, mkFnScenario, mkFnEdgeScenario, ih]

theorem methodPassOne_count (cn : String) (ms : List (Option String)) :
    ∀ sid, ((methodPassOne cn ms sid).1).countP
      (fun s => s.target_type == "method")
      = (ms.filter (fun mn => !is_excluded_magic (mn.getD "unknown"))).length := by
  induction ms with
  | nil => intro sid; simp [methodPassOne]
  | cons mname rest ih =>
      intro sid
      unfold methodPassOne
      by_cases hex : is_excluded_magic (mname.getD "unknown")
      · simp [hex, ih]
      · simp [hex, List.countP_cons, mkMethodScenario, ih]

theorem methodPass_count (ml : List (String × List (Option String))) :
    ∀ sid, ((methodPass ml sid).1).countP (fun s => s.target_type == "method")
      = (ml.map (fun e => (e.2.filter
          (fun mn => !is_excluded_magic (mn.getD "unknown"))).length)).sum := by
  induction ml with
  | nil => intro sid; simp [methodPass]
  | cons e rest ih =>
      intro sid
      obtain ⟨cn, ms⟩ := e
      unfold methodPass
      simp [List.countP_append, methodPassOne_count, ih]

theorem classPass_count (cl : List (Option String)) :
    ∀ sid, ((classPass cl sid).1).countP (fun s => s.target_type == "class")
      = cl.length := by
  induction cl with
  | nil => intro sid; simp [classPass]
  | cons c rest ih =>
      intro sid
      unfold classPass
      simp [List.countP_cons, mkClassScenario, ih]

/-- **C8 counterexample**: for a single extracted function `f` with an
empty parameter list, the initial generation pass emits exactly one
function scenario and no edge-case (priority `medium`) scenario, against
the claim's "exactly one happy-path AND one edge-case scenario per
function". -/
theorem c8_counterexample_paramless_function :
    (genFunctions oneFnAnalysis).length = 1 ∧
    (generate_coverage_focused_scenarios oneFnAnalysis none 0).scenarios.countP
        (fun s => s.target_type == "function") = 1 ∧
    (generate_coverage_focused_scenarios oneFnAnalysis none 0).scenarios.countP
        (fun s => s.target_type == "function" && s.priority == "medium") = 0 ∧
    (generate_coverage_focused_scenarios oneFnAnalysis none 0).total_scenarios
      = 1 := by
  refine ⟨by decide, by decide, by decide, by decide⟩

/-- **C8 amended** (proved): on the initial iteration with no
uncovered-unit focus, the generator emits exactly one happy-path
(priority `high`) function scenario per function entry, one edge-case
(priority `medium`) function scenario per function entry *whose
parameter list is non-empty*, one method scenario per non-excluded
method entry of the methods dictionary, and one instantiation scenario
per class entry. -/
theorem c8_initial_iteration_counts (sa : StaticAnalysis) :
    (generate_coverage_focused_scenarios sa none 0).scenarios.countP
        (fun s => s.target_type == "function" && s.priority == "high")
      = (genFunctions sa).length ∧
    (generate_coverage_focused_scenarios sa none 0).scenarios.countP
        (fun s => s.target_type == "function" && s.priority == "medium")
      = (genFunctions sa).countP (fun p => !(p.2.getD []).isEmpty) ∧
    (generate_coverage_focused_scenarios sa none 0).scenarios.countP
        (fun s => s.target_type == "method")
      = ((genMethods sa).map (fun e => (e.2.filter
          (fun mn => !is_excluded_magic (mn.getD "unknown"))).length)).sum ∧
    (generate_coverage_focused_scenarios sa none 0).scenarios.countP
        (fun s => s.target_type == "class")
      = (genClasses sa).length := by
  have zMfn : ∀ (q : Scenario → Bool) sid,
      (∀ k cn mn, q (mkMethodScenario k cn mn) = false) →
      ((methodPass (genMethods sa) sid).1).countP q = 0 := by
    intro q sid hq
    refine List.countP_eq_zero.mpr (fun s hs => ?_)
    obtain ⟨k, cn, mn, rfl, _⟩ := methodPass_mem _ _ s hs
    simp [hq]
  have zCfn : ∀ (q : Scenario → Bool) sid,
      (∀ s, s.target_type = "class" → q s = false) →
      ((classPass (genClasses sa) sid).1).countP q = 0 := by
    intro q sid hq
    refine List.countP_eq_zero.mpr (fun s hs => ?_)
    simp [hq s (classPass_mem _ _ s hs)]
  have zFfn : ∀ (q : Scenario → Bool) sid,
      (∀ s, s.target_type = "function" → q s = false) →
      ((fnPass (genFunctions sa) sid).1).countP q = 0 := by
    intro q sid hq
    refine List.countP_eq_zero.mpr (fun s hs => ?_)
    simp [hq s (fnPass_mem_type _ _ s hs)]
  refine ⟨?_, ?_, ?_, ?_⟩ <;>
    rw [generate_none_scenarios] <;>
    simp only [List.countP_append]
  · rw [fnPass_count_high,
      zMfn _ _ (fun k cn mn => by simp [mkMethodScenario]),
      zCfn _ _ (fun s hs => by simp [hs])]
    omega
  · rw [fnPass_count_med,
      zMfn _ _ (fun k cn mn => by simp [mkMethodScenario]),
      zCfn _ _ (fun s hs => by simp [hs])]
    omega
  · rw [methodPass_count,
      zFfn _ _ (fun s hs => by simp [hs]),
      zCfn _ _ (fun s hs => by simp [hs])]
    omega
  · rw [classPass_count,
      zFfn _ _ (fun s hs => by simp [hs]),
      zMfn _ _ (fun k cn mn => by simp [mkMethodScenario])]
    omega

/-! ## Claim C9 -/

theorem applyResult_key (r : TestRecord) (res : ExecDetail) (it : Int) :
    (applyResult r res it).id = r.id ∧
    (applyResult r res it).scenario_description = r.scenario_description ∧
    (applyResult r res it).target_name = r.target_name := by
  unfold applyResult
  by_cases h1 : res.status == "PASS"
  · simp [h1]
  · by_cases h2 : pyIn "SyntaxError" res.error || pyIn "ImportError" res.error
    · simp [h1, h2]
    · simp [h1, h2]

theorem stepResult_ids (records : List TestRecord) (res : ExecDetail)
    (it : Int) :
    (stepResult records res it).map (fun r => r.id)
      = records.map (fun r => r.id) := by
  unfold stepResult
  cases h : records.find? (fun r => matchesRecord res.test_name r) with
  | none => rfl
  | some hit =>
      rw [List.map_map]
      refine List.map_congr_left (fun r _ => ?_)
      by_cases hid : r.id == hit.id
      · simp only [Function.comp_apply, hid, if_true]
        exact (applyResult_key r res it).1
      · have hid2 : ¬(r.id = hit.id) := by simpa using hid
        simp [Function.comp_apply, hid2]

theorem stepResult_mem (records : List TestRecord) (res : ExecDetail)
    (it : Int) (r : TestRecord) (hmem : r ∈ records)
    (hnodup : (records.map (fun x => x.id)).Nodup)
    (hno : matchesRecord res.test_name r = false) :
    r ∈ stepResult records res it := by
  unfold stepResult
  cases hf : records.find? (fun x => matchesRecord res.test_name x) with
  | none => exact hmem
  | some hit =>
      have hhitmem : hit ∈ records := List.mem_of_find?_eq_some hf
      have hhitmatch := List.find?_some hf
      have hne : r ≠ hit := by
        intro e
        rw [e, hhitmatch] at hno
        exact absurd hno (by simp)
      have hid : (r.id == hit.id) = false := by
        rw [beq_eq_false_iff_ne]
        intro e
        exact hne (List.inj_on_of_nodup_map hnodup hmem hhitmem e)
      have hfix : (fun x => if x.id == hit.id then applyResult x res it else x) r
          = r := by
        simp [hid]
      exact hfix ▸ List.mem_map_of_mem _ hmem

theorem foldSteps_mem (details : List ExecDetail) (it : Int) :
    ∀ (records : List TestRecord) (r : TestRecord), r ∈ records →
    (records.map (fun x => x.id)).Nodup →
    (∀ res ∈ details, matchesRecord res.test_name r = false) →
    r ∈ details.foldl (fun recs res => stepResult recs res it) records := by
  induction details with
  | nil => intro records r hmem _ _; simpa using hmem
  | cons res rest ih =>
      intro records r hmem hnodup hno
      simp only [List.foldl_cons]
      refine ih (stepResult records res it) r
        (stepResult_mem records res it r hmem hnodup
          (hno res (List.mem_cons_self _ _))) ?_
        (fun q hq => hno q (List.mem_cons_of_mem _ hq))
      rw [stepResult_ids]
      exact hnodup

/-- **C9** (confirmed): a `TestCaseRecord` whose status is `passed` is
left unchanged by `update_test_case_status` when no supplied execution
result matches it — including when the overall status is `FAIL` or
`ERROR` (only `pending` records are touched by the overall-status
fallbacks) — and the record is returned by `get_passed_test_cases`. -/
theorem c9_passed_record_preserved (tracking : TrackingData)
    (results : TestResults) (it : Int) (r : TestRecord)
    (hnodup : (tracking.test_records.map (fun x => x.id)).Nodup)
    (hmem : r ∈ tracking.test_records) (hst : r.status = "passed")
    (hno : ∀ res ∈ results.test_details,
      matchesRecord res.test_name r = false) :
    r ∈ (update_test_case_status tracking results it).test_records ∧
    passedEntry r ∈
      get_passed_test_cases (update_test_case_status tracking results it) := by
  have hrec : r ∈ (update_test_case_status tracking results it).test_records := by
    unfold update_test_case_status
    by_cases hd : results.test_details.isEmpty
    · by_cases hp : results.status == "PASS"
      · simp only [hd, hp, Bool.not_true, false_and, if_true, not_true_eq_false,
          Bool.false_eq_true, if_false]
        have hfix : markPendingPassed it r = r := by
          unfold markPendingPassed
          rw [hst]
          simp
        exact hfix ▸ List.mem_map_of_mem _ hmem
      · by_cases hf : results.status == "FAIL" || results.status == "ERROR"
        · simp only [hd, hp, hf, not_true_eq_false, Bool.false_eq_true, if_false,
            if_true]
          have hfix : markPendingFailed it
              (results.error_summary.getD "Execution failed") r = r := by
            unfold markPendingFailed
            rw [hst]
            simp
          exact hfix ▸ List.mem_map_of_mem _ hmem
        · simp only [hd, hp, hf, not_true_eq_false, Bool.false_eq_true, if_false]
          exact hmem
    · simp only [hd, not_false_eq_true, Bool.not_eq_true, if_true]
      exact foldSteps_mem results.test_details it tracking.test_records r hmem
        hnodup hno
  refine ⟨hrec, ?_⟩
  unfold get_passed_test_cases
  exact List.mem_map_of_mem _ (List.mem_filter.mpr ⟨hrec, by simp [hst]⟩)

/-- Witness for C9: the passed record `t1` survives an update whose only
execution detail matches the other record and whose overall status is
FAIL. -/
theorem c9_witness :
    passedRec ∈ (update_test_case_status trackingTwo failResults 1).test_records ∧
    passedEntry passedRec ∈
      get_passed_test_cases (update_test_case_status trackingTwo failResults 1) :=
  c9_passed_record_preserved trackingTwo failResults 1 passedRec (by decide)
    (by decide) rfl (by decide)

/-! ## Claim C10 -/

/-- **C10** (confirmed): initializing status tracking with an empty
scenario list yields `total_tests = 0`; the summary then reports
`all_tests_passing = true` (0 = 0) with success rate 0 (no executed
tests), and `should_continue_execution_loop` exits with type
`all_passed` on its very first evaluation (iteration 0 of the default
budget) — an empty suite is treated as fully passing and ends Stage 2
immediately. -/
theorem c10_empty_suite_exits_all_passed :
    (init_test_status_tracking []).total_tests = 0 ∧
    (get_status_summary (init_test_status_tracking [])).all_tests_passing
      = true ∧
    (get_status_summary (init_test_status_tracking [])).success_rate = 0 ∧
    (should_continue_execution_loop
        (get_status_summary (init_test_status_tracking [])) 0
        EXECUTION_MAX_ITERATIONS).should_continue = false ∧
    (should_continue_execution_loop
        (get_status_summary (init_test_status_tracking [])) 0
        EXECUTION_MAX_ITERATIONS).exit_type = some "all_passed" := by
  refine ⟨by decide, by decide, ?_, by decide, by decide⟩
  simp [get_status_summary, init_test_status_tracking, initRecordsLoop,
    pyRound2_zero]
